import Mathlib

/-!
Verification of the USB stream test orchestrator (`RunTest` in
`sw/host/tests/usbdev/usbdev_stream/stream_test.cc`).

The development shallowly embeds the pieces of `RunTest` that the
properties concern: the test-descriptor interpretation (stream count and
per-stream transfer type), the stream-opening loop with rollback on
failure, the stream-type dispatch switch, and one iteration ("tick") of
the main polling loop, including the suspend/resume state machine, the
progress aggregation and the reporting condition.  Machine integers are
modelled as `Nat` with explicit `% 2^32` where the C code uses `uint32_t`
arithmetic that could wrap, and the `int32_t` casts in the reporting
condition are made explicit.
-/

namespace StreamTest

/-- Modelled from the spec: the test numbers `kUsbTestNumberStreams`,
`kUsbTestNumberIso` and `kUsbTestNumberMixed` are enumerators declared in
`usb_device.h`, which is not part of the sources available here; the spec
refers to them only symbolically (`Streams`, `Isochronous`, `Mixed`, and
"any other testNumber").  They are therefore modelled as distinct
constructors, with `other` covering every remaining test number byte. -/
inductive TestNumber where
  | streams
  | iso
  | mixed
  | other (code : Nat)
  deriving DecidableEq, Repr

/-- The stream/transfer types of `USBDevStream::StreamType` used by
`RunTest`. -/
inductive StreamType where
  | serial
  | bulk
  | isochronous
  | interrupt
  | control
  deriving DecidableEq, Repr

/-- The device states of `USBDevice` observed via `CurrentState()`. -/
inductive DeviceState where
  | streaming
  | suspendingState
  | suspendedState
  | resuming
  deriving DecidableEq, Repr

/-- Stream count determined by `RunTest` from the test descriptor
(stream_test.cc lines 191-204): the low nibble of `testArg[0]` for the
Streams/Iso/Mixed tests, a fixed 2 otherwise. -/
def nstreamsOf (testNum : TestNumber) (arg0 : Nat) : Nat :=
  match testNum with
  | .streams => arg0 &&& 0xf
  | .iso => arg0 &&& 0xf
  | .mixed => arg0 &&& 0xf
  | .other _ => 2

/-- Total number of bytes to be transferred for the entire test
(`kTransferBytes = 0x10U << 20`). -/
def kTransferBytes : Nat := 0x10 <<< 20

/-- The 24-bit mixed-types field assembled in `RunTest` for the Mixed
test: `(testArg[3] << 16) | (testArg[2] << 8) | testArg[1]`. -/
def mixedTypes (a1 a2 a3 : Nat) : Nat :=
  (a3 <<< 16) ||| (a2 <<< 8) ||| a1

/-- Stream type chosen by `RunTest` for stream `idx`
(stream_test.cc lines 218-260).  For the Streams test the serial
transport is used only when serial ports are preferred and suspend
testing is disabled; for the Mixed test two bits per stream of the
assembled `mixedTypes` field select the type. -/
def streamTypeOf (serialCfg suspendCfg : Bool) (testNum : TestNumber)
    (a1 a2 a3 : Nat) (idx : Nat) : StreamType :=
  match testNum with
  | .streams => if serialCfg && !suspendCfg then .serial else .bulk
  | .iso => .isochronous
  | .mixed =>
    match (mixedTypes a1 a2 a3 >>> (idx * 2)) &&& 3 with
    | 0 => .control
    | 1 => .isochronous
    | 2 => .bulk
    | _ => .interrupt
  | .other _ => .bulk

/-- Spec-side decoder of a 2-bit mixed-mode code, following the wording of the spec, "0→Control, 1→Isochronous, 2→Bulk, 3→Interrupt"; used to compare
the source `switch` against the claimed mapping. -/
def specMixedDecode (code : Nat) : StreamType :=
  if code = 0 then .control
  else if code = 1 then .isochronous
  else if code = 2 then .bulk
  else .interrupt

/-- The actions of the stream-opening `switch` in `RunTest`
(stream_test.cc lines 269-308): construct and open a `USBDevSerial`,
construct and open a `USBDevInt` (with its `bulk` flag), or hit the
`default` branch, which is `assert(!"Unrecognised/invalid stream type")`
and aborts the process. -/
inductive OpenAction where
  | openSerial
  | openInt (bulk : Bool)
  | abortProcess
  deriving DecidableEq, Repr

/-- The stream-opening `switch` of `RunTest`.  `libusb` reflects the
`STREAMTEST_LIBUSB` build flag: the `StreamType_Interrupt` and
`StreamType_Bulk` cases exist only under `#if STREAMTEST_LIBUSB`
(Interrupt clears `bulk` and falls through to the Bulk case); every
stream type without a case reaches the aborting `default` branch. -/
def openDispatch (libusb : Bool) : StreamType → OpenAction
  | .serial => .openSerial
  | .interrupt => if libusb then .openInt false else .abortProcess
  | .bulk => if libusb then .openInt true else .abortProcess
  | .isochronous => .abortProcess
  | .control => .abortProcess

/-- The stream types for which the opening `switch` has a matching
transport-construction case (a "transport factory"), read off the case
labels of stream_test.cc lines 269-308. -/
def hasFactory (libusb : Bool) : StreamType → Bool
  | .serial => true
  | .interrupt => libusb
  | .bulk => libusb
  | .isochronous => false
  | .control => false

/-- Indices deleted by the rollback `do`-`while` loop of `RunTest`
(stream_test.cc lines 313-316) when started at `idx`:
`idx-1, idx-2, ..., 0`. -/
def teardownLoop : Nat → List Nat
  | 0 => []
  | i + 1 => i :: teardownLoop i

/-- Cleanup performed when opening stream `idx` fails
(stream_test.cc lines 310-319): previously-opened streams are deleted in
reverse index order, guarded by `idx > 0`. -/
def openFailureCleanup (idx : Nat) : List Nat :=
  if 0 < idx then teardownLoop idx else []

/-- The stream-initialization loop of `RunTest` restricted to its
open/rollback behavior: streams are opened in ascending index order
(`opens i` tells whether opening stream `i` succeeds); on the first
failure the rollback deletions are returned as the error, otherwise all
`n` streams open. -/
def openStreamsFrom (opens : Nat → Bool) : Nat → Nat → Except (List Nat) Unit
  | _, 0 => Except.ok ()
  | idx, rem + 1 =>
    if opens idx then openStreamsFrom opens (idx + 1) rem
    else Except.error (openFailureCleanup idx)

/-- Open all `n` streams starting from index 0, as the initialization
loop of `RunTest` does. -/
def openStreams (opens : Nat → Bool) (n : Nat) : Except (List Nat) Unit :=
  openStreamsFrom opens 0 n

/-- Observable calls made by one iteration of the main loop of
`RunTest`, in program order. -/
inductive Event where
  | serviceStream (idx : Nat)
  | pauseStream (idx : Nat)
  | resumeStream (idx : Nat)
  | stopStream (idx : Nat)
  | devSuspend
  | devResume
  | devSetState (s : DeviceState)
  | devService
  | report
  deriving DecidableEq, Repr

/-- Per-tick observation of one stream: the results that the method calls
`Service()`, `TransferBytes()`, `BytesRecvd()`, `BytesSent()` and
`Completed()` calls would return during this iteration. -/
structure StreamObs where
  svcOk : Bool
  xferBytes : Nat
  recvd : Nat
  sent : Nat
  completed : Bool
  deriving DecidableEq, Repr

/-- Inputs of one iteration of the main loop: the configuration flag
`cfg.suspending`, the device state observed by `CurrentState()`, the
per-stream observations, the value of `elapsed_time(start_time)`, the
result of `dev->Service()`, and the current `prev_bytes`. -/
structure TickInput where
  suspending : Bool
  devState : DeviceState
  streams : List StreamObs
  elapsed : Nat
  devSvcOk : Bool
  prevBytes : Nat

/-- Result of the per-stream service loop inside the `StateStreaming`
case (stream_test.cc lines 343-360), plus its events. -/
structure SvcResult where
  events : List Event
  failed : Bool
  done : Bool
  totalBytes : Nat
  totalRecv : Nat
  totalSent : Nat
  deriving DecidableEq, Repr

/-- Modulus of the `uint32_t` arithmetic used for running totals. -/
def u32 : Nat := 2 ^ 32

/-- The per-stream service loop: each stream is serviced; on a `Service`
failure the loop breaks with `failed` set; otherwise the `uint32_t`
running totals accumulate and `done` is cleared if the stream has not
completed.  `done` enters the loop as `true`. -/
def serviceLoop : List StreamObs → Nat → SvcResult
  | [], _ =>
    { events := [], failed := false, done := true,
      totalBytes := 0, totalRecv := 0, totalSent := 0 }
  | s :: rest, idx =>
    if s.svcOk then
      let r := serviceLoop rest (idx + 1)
      { events := .serviceStream idx :: r.events,
        failed := r.failed,
        done := s.completed && r.done,
        totalBytes := (s.xferBytes + r.totalBytes) % u32,
        totalRecv := (s.recvd + r.totalRecv) % u32,
        totalSent := (s.sent + r.totalSent) % u32 }
    else
      { events := [.serviceStream idx], failed := true, done := true,
        totalBytes := 0, totalRecv := 0, totalSent := 0 }

/-- Timing constants of the suspend/resume state machine, in
microseconds (stream_test.cc lines 325-330). -/
def kRunInterval : Nat := 5 * 1000000

/-- Dwell in the Suspending state before entering Suspended. -/
def kSuspendingInterval : Nat := 5 * 1000

/-- Dwell in the Suspended state before initiating resume. -/
def kSuspendedInterval : Nat := 5 * 1000000

/-- Minimum dwell in the Resuming state before traffic restarts. -/
def kResumeInterval : Nat := 30 * 1000

/-- The `switch (dev->CurrentState())` of the main loop
(stream_test.cc lines 341-426): in `StateStreaming` the streams are
serviced and, when suspend testing is enabled and the run interval has
elapsed, every stream is paused and the device is suspended (the
`if (true)` branch of the source; the `else` branch is dead code); the
other states wait out their dwell times, and `StateResuming` resumes
every stream before setting the state back to `StateStreaming`.  `done`
is `false` on entry to the iteration and is touched only by the
`StateStreaming` case. -/
def stateBranch (t : TickInput) : SvcResult :=
  let n := t.streams.length
  match t.devState with
  | .streaming =>
    let r := serviceLoop t.streams 0
    let suspendEvs :=
      if t.suspending = true ∧ kRunInterval ≤ t.elapsed then
        (List.range n).map Event.pauseStream ++ [Event.devSuspend]
      else []
    { r with events := r.events ++ suspendEvs }
  | .suspendingState =>
    { events :=
        if kSuspendingInterval ≤ t.elapsed then
          [Event.devSetState .suspendedState]
        else [],
      failed := false, done := false,
      totalBytes := 0, totalRecv := 0, totalSent := 0 }
  | .suspendedState =>
    { events :=
        if kSuspendedInterval ≤ t.elapsed then [Event.devResume] else [],
      failed := false, done := false,
      totalBytes := 0, totalRecv := 0, totalSent := 0 }
  | .resuming =>
    { events :=
        if kResumeInterval ≤ t.elapsed then
          (List.range n).map Event.resumeStream
            ++ [Event.devSetState .streaming]
        else [],
      failed := false, done := false,
      totalBytes := 0, totalRecv := 0, totalSent := 0 }

/-- Conversion of a `uint32_t` value to `int32_t`, as the casts in the
reporting condition perform (modular conversion). -/
def toInt32 (x : Nat) : Int :=
  if x % u32 < 2 ^ 31 then (x % u32 : Int) else (x % u32 : Int) - (u32 : Int)

/-- The reporting condition of stream_test.cc line 442:
`std::abs((int32_t)total_sent - (int32_t)prev_bytes) >= 0x1000 || done`. -/
def reportCond (totalSent prevBytes : Nat) (done : Bool) : Bool :=
  decide (0x1000 ≤ (toInt32 totalSent - toInt32 prevBytes).natAbs) || done

/-- Full result of one iteration of the main loop.  `failed = true`
means the iteration returned the fatal outcome (exit code 3) after
stopping every stream; `done` is the value of the local `done` flag, and
`reported`/`prevBytes` reflect the progress-reporting block. -/
structure TickResult where
  events : List Event
  failed : Bool
  done : Bool
  totalSent : Nat
  reported : Bool
  prevBytes : Nat

/-- Events of the part of the loop iteration after the device-state
`switch`: `dev->Service()` runs only when no stream service failed
(stream_test.cc line 429); on any failure every stream is stopped
(lines 434-439), otherwise the progress-reporting block may emit a
report (lines 442-452). -/
def tailEvents (t : TickInput) (b : SvcResult) : List Event :=
  if b.failed || !t.devSvcOk then
    (if b.failed then [] else [Event.devService])
      ++ (List.range t.streams.length).map Event.stopStream
  else
    [Event.devService]
      ++ (if reportCond b.totalSent t.prevBytes b.done then [Event.report]
          else [])

/-- One iteration ("tick") of the main loop of `RunTest`
(stream_test.cc lines 334-453): the device-state branch, then
`dev->Service()` when no stream service failed, then either the fatal
cleanup path (`Stop()` on every stream, return 3) or the
progress-reporting block. -/
def tick (t : TickInput) : TickResult :=
  let b := stateBranch t
  if b.failed || !t.devSvcOk then
    { events := b.events ++ tailEvents t b,
      failed := true, done := b.done, totalSent := b.totalSent,
      reported := false, prevBytes := t.prevBytes }
  else
    let rep := reportCond b.totalSent t.prevBytes b.done
    { events := b.events ++ tailEvents t b,
      failed := false, done := b.done, totalSent := b.totalSent,
      reported := rep,
      prevBytes := if rep then b.totalSent else t.prevBytes }

/-! ## Helper lemmas -/

theorem tick_events_eq (t : TickInput) :
    (tick t).events = (stateBranch t).events ++ tailEvents t (stateBranch t) := by
  rcases h : ((stateBranch t).failed || !t.devSvcOk) with _ | _ <;> simp [tick, h]

theorem tick_done_eq (t : TickInput) :
    (tick t).done = (stateBranch t).done := by
  rcases h : ((stateBranch t).failed || !t.devSvcOk) with _ | _ <;> simp [tick, h]

theorem tick_failed_eq (t : TickInput) :
    (tick t).failed = ((stateBranch t).failed || !t.devSvcOk) := by
  rcases h : ((stateBranch t).failed || !t.devSvcOk) with _ | _ <;> simp [tick, h]

theorem tick_totalSent_eq (t : TickInput) :
    (tick t).totalSent = (stateBranch t).totalSent := by
  rcases h : ((stateBranch t).failed || !t.devSvcOk) with _ | _ <;> simp [tick, h]

theorem tick_reported_not_failed (t : TickInput)
    (h : ((stateBranch t).failed || !t.devSvcOk) = false) :
    (tick t).reported
      = reportCond (stateBranch t).totalSent t.prevBytes (stateBranch t).done := by
  simp [tick, h]

theorem serviceLoop_done_eq_all (l : List StreamObs) :
    ∀ i, l.all (fun s => s.svcOk) = true →
      (serviceLoop l i).done = l.all (fun s => s.completed) := by
  induction l with
  | nil => intro i _; rfl
  | cons s rest ih =>
    intro i h
    rw [List.all_cons, Bool.and_eq_true] at h
    simp [serviceLoop, h.1, List.all_cons, ih (i + 1) h.2]

theorem serviceLoop_not_failed_all_ok (l : List StreamObs) :
    ∀ i, (serviceLoop l i).failed = false →
      l.all (fun s => s.svcOk) = true := by
  induction l with
  | nil => intro i _; rfl
  | cons s rest ih =>
    intro i h
    by_cases hs : s.svcOk
    · simp only [serviceLoop, hs, if_pos] at h
      simp [List.all_cons, hs, ih (i + 1) h]
    · simp [serviceLoop, hs] at h

/-! ## Claims about the test-descriptor interpreter -/

/-- Claim C2: the stream count computed by `RunTest` equals
`testArg[0] & 0xF` when the test number is Streams, Isochronous or
Mixed, and equals 2 for every other test number. -/
theorem nstreams_of_descriptor (tn : TestNumber) (a0 : Nat) :
    ((tn = .streams ∨ tn = .iso ∨ tn = .mixed) →
      nstreamsOf tn a0 = a0 &&& 0xf)
    ∧ (¬(tn = .streams ∨ tn = .iso ∨ tn = .mixed) →
      nstreamsOf tn a0 = 2) := by
  cases tn <;> simp [nstreamsOf]

/-- Witness for C2 at concrete inputs. -/
theorem nstreams_of_descriptor_witness :
    nstreamsOf .streams 0x37 = 0x37 &&& 0xf
    ∧ nstreamsOf (.other 5) 0x37 = 2 :=
  ⟨(nstreams_of_descriptor .streams 0x37).1 (Or.inl rfl),
   (nstreams_of_descriptor (.other 5) 0x37).2 (by decide)⟩

/-- Claim C3: for the Mixed test the stream type of stream `i` is the
2-bit field at offset `2*i` of `(testArg[3]<<16)|(testArg[2]<<8)|testArg[1]`,
decoded as 0→Control, 1→Isochronous, 2→Bulk, 3→Interrupt; in particular
all-zero `testArg[1..3]` gives Control for every stream, and a field of
`0b11` gives Interrupt. -/
theorem mixed_stream_type_decode (sc zc : Bool) (a1 a2 a3 i : Nat) :
    streamTypeOf sc zc .mixed a1 a2 a3 i
      = specMixedDecode ((mixedTypes a1 a2 a3 >>> (2 * i)) &&& 3)
    ∧ (a1 = 0 → a2 = 0 → a3 = 0 →
      streamTypeOf sc zc .mixed a1 a2 a3 i = .control)
    ∧ (((mixedTypes a1 a2 a3 >>> (2 * i)) &&& 3) = 3 →
      streamTypeOf sc zc .mixed a1 a2 a3 i = .interrupt) := by
  have key : ∀ c, (mixedTypes a1 a2 a3 >>> (i * 2)) &&& 3 = c →
      streamTypeOf sc zc .mixed a1 a2 a3 i = specMixedDecode c := by
    intro c h
    have hc : c ≤ 3 := h ▸ Nat.and_le_right
    simp only [streamTypeOf, h]
    interval_cases c <;> rfl
  have e : 2 * i = i * 2 := Nat.mul_comm 2 i
  refine ⟨?_, ?_, ?_⟩
  · rw [e]; exact key _ rfl
  · rintro rfl rfl rfl
    have h0 : (mixedTypes 0 0 0 >>> (i * 2)) &&& 3 = 0 := by
      simp [mixedTypes, Nat.zero_shiftRight, Nat.zero_and]
    rw [key 0 h0]; rfl
  · intro h3; rw [e] at h3; rw [key 3 h3]; rfl

/-- Witness for C3 at concrete inputs. -/
theorem mixed_stream_type_decode_witness :
    streamTypeOf false false .mixed 0xe4 0 0 3
      = specMixedDecode ((mixedTypes 0xe4 0 0 >>> (2 * 3)) &&& 3)
    ∧ streamTypeOf false false .mixed 0 0 0 5 = .control
    ∧ streamTypeOf true false .mixed 0xff 0 0 2 = .interrupt :=
  ⟨(mixed_stream_type_decode false false 0xe4 0 0 3).1,
   (mixed_stream_type_decode false false 0 0 0 5).2.1 rfl rfl rfl,
   (mixed_stream_type_decode true false 0xff 0 0 2).2.2 (by decide)⟩

/-- Claim C9 fails on the code: for the Streams test with
`testArg[0] = 0x10` the low nibble is 0, so `nstreams = 0` and the
transfer-size computation `(kTransferBytes + nstreams - 1) / nstreams`
divides by zero. -/
theorem nstreams_zero_counterexample :
    nstreamsOf .streams 0x10 = 0 ∧ ¬(1 ≤ nstreamsOf .streams 0x10) := by
  decide

/-- Claim C9 amended: the per-stream transfer-size division executes
with `nstreams ≥ 1` precisely when the test number is not one of
Streams/Isochronous/Mixed, or the low nibble of `testArg[0]` is nonzero;
in the remaining case `nstreams = 0` and the division divides by zero. -/
theorem nstreams_positive_iff (tn : TestNumber) (a0 : Nat) :
    1 ≤ nstreamsOf tn a0 ↔
      (¬(tn = .streams ∨ tn = .iso ∨ tn = .mixed) ∨ a0 &&& 0xf ≠ 0) := by
  cases tn <;> simp [nstreamsOf, Nat.one_le_iff_ne_zero]

/-! ## Claims about the stream-opening loop -/

theorem teardownLoop_eq_reverse_range (k : Nat) :
    teardownLoop k = (List.range k).reverse := by
  induction k with
  | zero => rfl
  | succ i ih =>
    rw [teardownLoop, List.range_succ, List.reverse_append]
    simp [ih]

theorem openStreamsFrom_reach (opens : Nat → Bool) :
    ∀ j start rem, (∀ i, i < j → opens (start + i) = true) →
      opens (start + j) = false → j < rem →
      openStreamsFrom opens start rem
        = Except.error (openFailureCleanup (start + j)) := by
  intro j
  induction j with
  | zero =>
    intro start rem _ hf hlt
    cases rem with
    | zero => omega
    | succ r =>
      rw [Nat.add_zero] at hf
      simp [openStreamsFrom, hf]
  | succ j ih =>
    intro start rem h hf hlt
    cases rem with
    | zero => omega
    | succ r =>
      have h0 : opens start = true := by
        have := h 0 (Nat.succ_pos j)
        rwa [Nat.add_zero] at this
      rw [openStreamsFrom, if_pos h0]
      have hstep : ∀ i, i < j → opens (start + 1 + i) = true := by
        intro i hi
        have heq : start + 1 + i = start + (i + 1) := by omega
        rw [heq]
        exact h (i + 1) (by omega)
      have hfail : opens (start + 1 + j) = false := by
        have heq : start + 1 + j = start + (j + 1) := by omega
        rw [heq]; exact hf
      have := ih (start + 1) r hstep hfail (by omega)
      rw [this]
      have heq : start + 1 + j = start + (j + 1) := by omega
      rw [heq]

/-- Claim C4: if opening stream `k > 0` fails after streams `0..k-1`
opened successfully, the initialization loop tears down exactly the `k`
previously-opened streams, in reverse index order `k-1` down to `0`,
each exactly once, and returns the open-failure outcome with no stream
left open (the deleted indices are exactly the opened ones). -/
theorem open_failure_rollback (opens : Nat → Bool) (n k : Nat)
    (hk : 0 < k) (hkn : k < n)
    (hopen : ∀ i, i < k → opens i = true) (hfail : opens k = false) :
    openStreams opens n = Except.error (teardownLoop k)
    ∧ teardownLoop k = (List.range k).reverse
    ∧ (∀ i, i < k → (teardownLoop k).count i = 1)
    ∧ (∀ i, i ∈ teardownLoop k ↔ i < k) := by
  have hmem : ∀ i, i ∈ teardownLoop k ↔ i < k := by
    intro i
    rw [teardownLoop_eq_reverse_range, List.mem_reverse, List.mem_range]
  have hnodup : (teardownLoop k).Nodup := by
    rw [teardownLoop_eq_reverse_range]
    exact List.nodup_reverse.mpr (List.nodup_range k)
  refine ⟨?_, teardownLoop_eq_reverse_range k, ?_, hmem⟩
  · have hreach := openStreamsFrom_reach opens k 0 n
      (by intro i hi; simpa using hopen i hi) (by simpa using hfail) hkn
    rw [openStreams, hreach]
    simp [openFailureCleanup, hk]
  · intro i hi
    exact List.count_eq_one_of_mem hnodup ((hmem i).mpr hi)

/-- Witness for C4: three streams requested, opening fails at index 2;
the loop reports failure after deleting streams 1 and 0 in that order. -/
theorem open_failure_rollback_witness :
    openStreams (fun i => decide (i < 2)) 3 = Except.error [1, 0] := by
  have h := open_failure_rollback (fun i => decide (i < 2)) 3 2
    (by decide) (by decide) (by decide) (by decide)
  rw [h.1]
  rfl

/-! ## Claim about the stream-type dispatch switch -/

/-- Claim C7: for a well-formed descriptor — one whose stream types all
have a matching transport-construction case — the stream-opening
`switch` never reaches its aborting `default` branch; and a stream type
without a matching case always reaches the aborting branch. -/
theorem wellformed_no_abort (libusb sc zc : Bool) (tn : TestNumber)
    (a0 a1 a2 a3 : Nat)
    (hwf : ∀ i, i < nstreamsOf tn a0 →
      hasFactory libusb (streamTypeOf sc zc tn a1 a2 a3 i) = true) :
    (∀ i, i < nstreamsOf tn a0 →
      openDispatch libusb (streamTypeOf sc zc tn a1 a2 a3 i)
        ≠ .abortProcess)
    ∧ (∀ ty, hasFactory libusb ty = false →
      openDispatch libusb ty = .abortProcess) := by
  constructor
  · intro i hi
    have h := hwf i hi
    cases hty : streamTypeOf sc zc tn a1 a2 a3 i <;>
      rw [hty] at h <;> cases libusb <;>
      simp_all [hasFactory, openDispatch]
  · intro ty hty
    cases ty <;> cases libusb <;> simp_all [hasFactory, openDispatch]

/-- Witness for C7: the Streams test with three bulk streams under the
libusb build; no stream reaches the aborting branch. -/
theorem wellformed_no_abort_witness :
    openDispatch true (streamTypeOf false false .streams 0 0 0 0)
      ≠ OpenAction.abortProcess :=
  (wellformed_no_abort true false false .streams 0x3 0 0 0
    (by decide)).1 0 (by decide)

/-! ## Concrete example inputs used by witnesses and counterexamples -/

/-- A stream that services successfully and is not yet complete. -/
def obsOk : StreamObs :=
  { svcOk := true, xferBytes := 100, recvd := 0, sent := 0,
    completed := false }

/-- A stream that services successfully and has completed. -/
def obsDone : StreamObs :=
  { svcOk := true, xferBytes := 4, recvd := 4, sent := 4,
    completed := true }

/-- A stream whose `Service()` fails and which has not completed. -/
def obsFail : StreamObs :=
  { svcOk := false, xferBytes := 4, recvd := 0, sent := 0,
    completed := false }

/-- A streaming tick at the end of the run interval with suspend
testing enabled. -/
def tSuspendEx : TickInput :=
  { suspending := true, devState := .streaming, streams := [obsOk],
    elapsed := kRunInterval, devSvcOk := true, prevBytes := 0 }

/-- A resuming tick at the end of the resume-signaling interval. -/
def tResumeEx : TickInput :=
  { suspending := true, devState := .resuming, streams := [obsOk],
    elapsed := kResumeInterval, devSvcOk := true, prevBytes := 0 }

/-- A streaming tick on which the single stream has completed. -/
def tAllDoneEx : TickInput :=
  { suspending := false, devState := .streaming, streams := [obsDone],
    elapsed := 0, devSvcOk := true, prevBytes := 0 }

/-- A suspended tick whose stream state is already complete. -/
def tSuspendedAllDoneEx : TickInput :=
  { suspending := false, devState := .suspendedState,
    streams := [obsDone], elapsed := 0, devSvcOk := true, prevBytes := 0 }

/-- A streaming tick on which the stream fails to service. -/
def tStreamFailEx : TickInput :=
  { suspending := false, devState := .streaming, streams := [obsFail],
    elapsed := 0, devSvcOk := true, prevBytes := 0 }

/-- A streaming tick whose sent-byte delta is exactly 0x1000. -/
def tBoundaryEx : TickInput :=
  { suspending := false, devState := .streaming,
    streams := [{ svcOk := true, xferBytes := 0x1000000, recvd := 0x1000,
                  sent := 0x1000, completed := false }],
    elapsed := 0, devSvcOk := true, prevBytes := 0 }

/-- A fatal streaming tick with a large sent-byte delta. -/
def tFatalDeltaEx : TickInput :=
  { suspending := false, devState := .streaming, streams := [obsFail],
    elapsed := 0, devSvcOk := true, prevBytes := 100000 }

/-! ## Claims about the main loop -/

/-- Claim C1: on a tick whose observed device state is not Streaming,
no stream `Service()` call is made. -/
theorem no_service_outside_streaming (t : TickInput) (idx : Nat)
    (h : t.devState ≠ .streaming) :
    Event.serviceStream idx ∉ (tick t).events := by
  rw [tick_events_eq t]
  rcases hs : t.devState
  case streaming => exact absurd hs h
  all_goals
    simp only [stateBranch, hs, tailEvents]
    split_ifs <;> simp

/-- Witness for C1 at a concrete resuming tick. -/
theorem no_service_outside_streaming_witness :
    Event.serviceStream 0 ∉ (tick tResumeEx).events :=
  no_service_outside_streaming tResumeEx 0 (by decide)

/-- Claim C5: with suspend testing enabled, a streaming tick at or past
the run interval pauses every stream and then suspends the device, in
that order; and a resuming tick at or past the resume dwell resumes
every stream and then sets the device state back to Streaming, in that
order. -/
theorem suspend_resume_ordering (t : TickInput)
    (hz : t.suspending = true) :
    (t.devState = .streaming → kRunInterval ≤ t.elapsed →
      ∃ pre post, (tick t).events
        = pre ++ (List.range t.streams.length).map Event.pauseStream
            ++ [Event.devSuspend] ++ post)
    ∧ (t.devState = .resuming → kResumeInterval ≤ t.elapsed →
      ∃ post, (tick t).events
        = (List.range t.streams.length).map Event.resumeStream
            ++ [Event.devSetState .streaming] ++ post) := by
  constructor
  · intro hs he
    refine ⟨(serviceLoop t.streams 0).events,
      tailEvents t (stateBranch t), ?_⟩
    rw [tick_events_eq t]
    simp only [stateBranch, hs]
    rw [if_pos ⟨hz, he⟩]
    simp [List.append_assoc]
  · intro hs he
    refine ⟨tailEvents t (stateBranch t), ?_⟩
    rw [tick_events_eq t]
    simp only [stateBranch, hs]
    rw [if_pos he]

/-- Witness for C5 at concrete streaming and resuming ticks. -/
theorem suspend_resume_ordering_witness :
    (∃ pre post, (tick tSuspendEx).events
      = pre ++ (List.range tSuspendEx.streams.length).map Event.pauseStream
          ++ [Event.devSuspend] ++ post)
    ∧ (∃ post, (tick tResumeEx).events
      = (List.range tResumeEx.streams.length).map Event.resumeStream
          ++ [Event.devSetState .streaming] ++ post) :=
  ⟨(suspend_resume_ordering tSuspendEx rfl).1 rfl (Nat.le_refl _),
   (suspend_resume_ordering tResumeEx rfl).2 rfl (Nat.le_refl _)⟩

/-- Claim C6 fails on the code as stated over every tick: on a
non-Streaming tick the `done` flag stays false even when every stream
reports complete, and on a streaming tick whose first `Service()` call
fails the flag remains true although a stream is incomplete. -/
theorem done_iff_completed_counterexample :
    (tSuspendedAllDoneEx.streams.all (fun s => s.completed) = true
      ∧ (tick tSuspendedAllDoneEx).done = false)
    ∧ ((tick tStreamFailEx).done = true
      ∧ tStreamFailEx.streams.all (fun s => s.completed) = false) := by
  decide

/-- Claim C6 amended: on every tick whose observed device state is
Streaming and on which every stream `Service()` call succeeds, the `done`
flag becomes true iff every stream `Completed()` result is true on that tick
(on other ticks `done` stays false, and after a mid-loop `Service()`
failure the iteration aborts with `done` not consulted). -/
theorem done_iff_all_completed (t : TickInput)
    (hs : t.devState = .streaming)
    (hok : t.streams.all (fun s => s.svcOk) = true) :
    ((tick t).done = true ↔ t.streams.all (fun s => s.completed) = true) := by
  rw [tick_done_eq]
  simp only [stateBranch, hs]
  rw [serviceLoop_done_eq_all t.streams 0 hok]

/-- Witness for the amended C6 at a concrete completed streaming tick. -/
theorem done_iff_all_completed_witness :
    (tick tAllDoneEx).done = true :=
  (done_iff_all_completed tAllDoneEx rfl (by decide)).mpr (by decide)

/-- Claim C10: a tick observed outside Streaming ends with `done`
false; and a tick that neither fails nor aborts can report `done = true`
only when the observed state is Streaming and every stream reports
`Completed()`. -/
theorem successful_exit_requires_streaming (t : TickInput) :
    (t.devState ≠ .streaming → (tick t).done = false)
    ∧ ((tick t).failed = false → (tick t).done = true →
      t.devState = .streaming
        ∧ t.streams.all (fun s => s.completed) = true) := by
  constructor
  · intro h
    rw [tick_done_eq]
    rcases hs : t.devState
    case streaming => exact absurd hs h
    all_goals simp [stateBranch, hs]
  · intro hf hd
    rw [tick_failed_eq] at hf
    have hfb : (stateBranch t).failed = false :=
      (Bool.or_eq_false_iff.mp hf).1
    rw [tick_done_eq] at hd
    rcases hs : t.devState
    case streaming =>
      simp only [stateBranch, hs] at hfb hd
      have hok := serviceLoop_not_failed_all_ok t.streams 0 hfb
      rw [serviceLoop_done_eq_all t.streams 0 hok] at hd
      exact ⟨rfl, hd⟩
    all_goals simp [stateBranch, hs] at hd

/-- Witness for C10 at concrete ticks: a resuming tick ends with `done`
false, and on a successful completed streaming tick the state is
Streaming with every stream complete. -/
theorem successful_exit_requires_streaming_witness :
    (tick tResumeEx).done = false
    ∧ (tAllDoneEx.devState = DeviceState.streaming
      ∧ tAllDoneEx.streams.all (fun s => s.completed) = true) :=
  ⟨(successful_exit_requires_streaming tResumeEx).1 (by decide),
   (successful_exit_requires_streaming tAllDoneEx).2 (by decide) (by decide)⟩

/-- Claim C8 fails on the code as stated: at a sent-byte delta of
exactly 4096 the code emits the progress line although the delta does
not exceed 4096 and the run is not complete; and on a fatal tick the
line is not emitted even though the delta exceeds 4096. -/
theorem report_threshold_counterexample :
    ((tick tBoundaryEx).reported = true
      ∧ ¬(4096 < ((toInt32 (tick tBoundaryEx).totalSent
          - toInt32 tBoundaryEx.prevBytes).natAbs))
      ∧ (tick tBoundaryEx).done = false)
    ∧ ((tick tFatalDeltaEx).reported = false
      ∧ 4096 < ((toInt32 (tick tFatalDeltaEx).totalSent
          - toInt32 tFatalDeltaEx.prevBytes).natAbs)) := by
  decide

/-- Claim C8 amended: on every tick that does not abort, the progress
line is emitted iff the absolute difference between the current
`int32_t`-cast total of sent bytes and the total at the last report is
at least 4096 (i.e. exceeds 4095), or the run has just completed. -/
theorem report_emitted_iff (t : TickInput)
    (hf : (tick t).failed = false) :
    ((tick t).reported = true ↔
      (4096 ≤ ((toInt32 (tick t).totalSent
          - toInt32 t.prevBytes).natAbs)
        ∨ (tick t).done = true)) := by
  rw [tick_failed_eq] at hf
  rw [tick_reported_not_failed t hf, tick_totalSent_eq, tick_done_eq]
  simp [reportCond, Bool.or_eq_true, decide_eq_true_eq]

/-- Witness for the amended C8: the completed streaming tick emits the
progress line. -/
theorem report_emitted_iff_witness :
    (tick tAllDoneEx).reported = true :=
  (report_emitted_iff tAllDoneEx (by decide)).mpr (Or.inr (by decide))

end StreamTest
